import Mathlib

/-!
Verification development for the bayes-developer-setup workflow scripts.

This file shallowly embeds the logic of `bin/git-review.py`, `bin/git-submit.py`
and `lambda-reviewable-to-slack/reviewable_to_slack.py`.  Python strings are
modelled by Lean `String`, with all string operations re-implemented over
`String.data` (lists of characters) so that every definition is executable and
kernel-reducible.  External effects (git subprocesses, the GitHub API, the
Slack API) are modelled as explicit parameters or oracle records; the pure
decision logic is transcribed from the Python source, control branch by
control branch.
-/

/-- A single-quote character, as a one-character string. -/
def squote : String := (Char.ofNat 39).toString

/-- Is `pat` a prefix of `s` (character lists)? -/
def chars_start_with : List Char → List Char → Bool
  | _, [] => true
  | [], _ :: _ => false
  | c :: cs, d :: ds => c == d && chars_start_with cs ds

/-- Python `s.startswith(pat)`. -/
def str_starts_with (s pat : String) : Bool :=
  chars_start_with s.data pat.data

/-- Python `s.endswith(pat)`. -/
def str_ends_with (s pat : String) : Bool :=
  chars_start_with s.data.reverse pat.data.reverse

/-- Lexicographic comparison of character lists by code point, as Python
compares strings. -/
def char_list_le : List Char → List Char → Bool
  | [], _ => true
  | _ :: _, [] => false
  | a :: as, b :: bs =>
    if a.toNat < b.toNat then true
    else if b.toNat < a.toNat then false
    else char_list_le as bs

/-- Python `a <= b` on strings. -/
def str_le (a b : String) : Bool := char_list_le a.data b.data

/-- Python `a < b` on strings. -/
def str_lt (a b : String) : Bool := str_le a b && !(a == b)

/-- Core of Python `s.split(sep)` for a non-empty separator, with enough fuel;
`acc` is the current chunk, reversed. -/
def split_on_chars (sep : List Char) : Nat → List Char → List Char → List (List Char)
  | 0, s, acc => [acc.reverse ++ s]
  | fuel + 1, s, acc =>
    match s with
    | [] => [acc.reverse]
    | c :: rest =>
      if chars_start_with s sep then
        acc.reverse :: split_on_chars sep fuel (s.drop sep.length) []
      else
        split_on_chars sep fuel rest (c :: acc)

/-- Python `s.split(sep)` for a non-empty separator. -/
def py_split (s sep : String) : List String :=
  (split_on_chars sep.data (s.data.length + 1) s.data []).map String.mk

/-- Python `dict.fromkeys(l)` used for order-preserving de-duplication: keeps
the first occurrence of each element. -/
def py_dict_from_keys (l : List String) : List String :=
  l.foldl (fun acc x => if acc.contains x then acc else acc ++ [x]) []

/-- Python truthiness of an optional string (`None` and `''` are falsy). -/
def py_truthy_str : Option String → Bool
  | none => false
  | some s => s != ""

/-- Python `str(...)` applied to an optional string (`None` prints as "None"). -/
def py_str_of_opt : Option String → String
  | none => "None"
  | some s => s

namespace GitReview

/-! ### `bin/git-review.py` -/

/-- `_References`: the branch references computed by `_get_git_branches`. -/
structure References where
  default : String
  branch : String
  remote : String
  base : String
  merge_base : String
deriving DecidableEq

/-- Is `c` matched by `_FORBIDDEN_CHARS_REGEX = re.compile(r'[#̀-ͯ]')`? -/
def is_forbidden_char (c : Char) : Bool :=
  c == '#' || (0x300 ≤ c.toNat && c.toNat ≤ 0x36F)

/-- Canonical (NFD) decomposition of a single character.  Models the external
`unicodedata.normalize('NFD', ...)` library call for the Latin letters with
diacritics that branch names realistically contain; characters without a
canonical decomposition are left alone. -/
def nfd_char (c : Char) : List Char :=
  match c with
  | 'à' => ['a', Char.ofNat 0x300]
  | 'á' => ['a', Char.ofNat 0x301]
  | 'â' => ['a', Char.ofNat 0x302]
  | 'ä' => ['a', Char.ofNat 0x308]
  | 'ç' => ['c', Char.ofNat 0x327]
  | 'è' => ['e', Char.ofNat 0x300]
  | 'é' => ['e', Char.ofNat 0x301]
  | 'ê' => ['e', Char.ofNat 0x302]
  | 'ë' => ['e', Char.ofNat 0x308]
  | 'î' => ['i', Char.ofNat 0x302]
  | 'ï' => ['i', Char.ofNat 0x308]
  | 'ô' => ['o', Char.ofNat 0x302]
  | 'ö' => ['o', Char.ofNat 0x308]
  | 'ù' => ['u', Char.ofNat 0x300]
  | 'û' => ['u', Char.ofNat 0x302]
  | 'ü' => ['u', Char.ofNat 0x308]
  | 'À' => ['A', Char.ofNat 0x300]
  | 'Â' => ['A', Char.ofNat 0x302]
  | 'Ç' => ['C', Char.ofNat 0x327]
  | 'É' => ['E', Char.ofNat 0x301]
  | 'È' => ['E', Char.ofNat 0x300]
  | 'Ô' => ['O', Char.ofNat 0x302]
  | _ => [c]

/-- NFD normalisation of a string, as a character list. -/
def nfd_string (s : String) : List Char :=
  s.data.flatMap nfd_char

/-- `_cleanup_branch_name`: NFD-normalise, then delete every character matched
by `_FORBIDDEN_CHARS_REGEX`. -/
def cleanup_branch_name (s : String) : String :=
  String.mk ((nfd_string s).filter (fun c => !is_forbidden_char c))

/-- The slice of `_get_git_branches` that determines the final branch and
remote names.  `created` is the branch name returned by
`_create_branch_for_review` (None when it found nothing to review);
`existing_remote` is `_get_existing_remote()` for the original HEAD.
The result is `none` exactly when the source raises a `_ScriptError`
(`branch required` / `No change to put in a new review`). -/
def git_branches_refs (username : String) (is_new_arg : Bool) (head default : String)
    (existing_remote : Option String) (created : Option String)
    (base merge_base : String) : Option References :=
  let is_new := is_new_arg || head == default
  if is_new then
    match created with
    | none => none
    | some new_branch =>
      some ⟨default, new_branch, cleanup_branch_name (username ++ "-" ++ new_branch),
            base, merge_base⟩
  else
    match existing_remote with
    | none => some ⟨default, head, cleanup_branch_name (username ++ "-" ++ head),
                    base, merge_base⟩
    | some r => some ⟨default, head, r, base, merge_base⟩

/-- `_push`: the git command issued, with `-f` exactly when `is_forced`. -/
def push_git_command (refs : References) (is_forced : Bool) : List String :=
  ["push"] ++ (if is_forced then ["-f"] else []) ++
    ["-u", "origin", refs.branch ++ ":" ++ refs.remote]

/-- The force flag computed by `prepare_push_and_request_review`:
`not is_new and _get_existing_remote() == refs.remote`. -/
def push_is_forced (is_new_arg : Bool) (existing_remote : Option String)
    (refs : References) : Bool :=
  !is_new_arg && (existing_remote == some refs.remote)

/-- The push performed by `prepare_push_and_request_review`: `none` when no
push happens (no diff against the merge base, or `_get_git_branches` raised);
otherwise the full git command. -/
def prepare_push_command (username : String) (is_new_arg : Bool) (head default : String)
    (existing_remote : Option String) (created : Option String)
    (base merge_base : String) (has_diff_from_merge_base : Bool) : Option (List String) :=
  match git_branches_refs username is_new_arg head default existing_remote created
      base merge_base with
  | none => none
  | some refs =>
    if has_diff_from_merge_base then
      some (push_git_command refs (push_is_forced is_new_arg existing_remote refs))
    else
      none

/-- Python `rb.rsplit('/', 1)[-1]`: the part of `rb` after its last slash. -/
def last_path_component (s : String) : String :=
  String.mk ((s.data.reverse.takeWhile (fun c => c != '/')).reverse)

/-- The `for ... else` loop of `_get_best_base_branch`: the containing remote
branches of the first commit of `commits` contained by at least one remote
branch (`contains sha` is the line list printed by
`git branch -r --contains sha`, empty when the output is empty). -/
def first_contained (contains : String → List String) : List String → Option (List String)
  | [] => none
  | sha :: rest =>
    let rbs := contains sha
    if rbs.isEmpty then first_contained contains rest else some rbs

/-- The final loop of `_get_best_base_branch`: the first candidate whose last
path component differs from the branch's own remote tracking name. -/
def first_non_tracking (remote : Option String) : List String → Option String
  | [] => none
  | rb :: rest =>
    let base := last_path_component rb
    if remote == some base then first_non_tracking remote rest else some base

/-- The body of `_get_best_base_branch` applied to a given commit walk. -/
def branch_walk_best_base (contains : String → List String) (commits : List String)
    (remote : Option String) (default : String) : Option String :=
  match first_contained contains commits with
  | none => none
  | some rbs =>
    if rbs.any (fun rb => str_ends_with rb ("/" ++ default)) then none
    else first_non_tracking remote rbs

/-- `_get_best_base_branch`: `rev_list` is the output of
`git rev-list --max-count=5 branch --` (most recent first); the source walks
`rev_list[1:]`, skipping the branch tip itself. -/
def get_best_base_branch (contains : String → List String) (rev_list : List String)
    (remote : Option String) (default : String) : Option String :=
  branch_walk_best_base contains rev_list.tail remote default

/-- Modelled from the spec: "walk the most recent N (5) commits of the branch;
for the first commit that is contained by at least one existing remote branch,
take that set of containing branches; if the default branch is among them,
there is no special base; otherwise prefer the first candidate that is not the
branch's own already-established remote tracking name."  The same body as the
source, but walking the whole five-commit list rather than skipping the tip. -/
def spec_best_base_branch (contains : String → List String) (rev_list : List String)
    (remote : Option String) (default : String) : Option String :=
  branch_walk_best_base contains rev_list remote default

/-- Result of `_get_auto_reviewer`: either the `_ScriptError` raised on an
empty engineer pool, or the chosen reviewer (possibly `None`). -/
inductive AutoReviewerResult
  | failure
  | chosen (reviewer : Option String)
deriving DecidableEq

/-- `_get_auto_reviewer`, on the path without a Lucca session (no absence
lookup configured): de-duplicate `recent_reviewers + engineers` keeping first
occurrences, keep only engineers, reverse (so the least recently used come
first), and pick the head.  `all_engineers` is the engineer set, given in its
(arbitrary) Python set-iteration order. -/
def get_auto_reviewer (recent_reviewers all_engineers : List String) : AutoReviewerResult :=
  if all_engineers.isEmpty then .failure
  else
    let prioritized :=
      ((py_dict_from_keys (recent_reviewers ++ all_engineers)).filter
        (fun r => all_engineers.contains r)).reverse
    .chosen prioritized.head?

/-- The recent-reviewer recording done by `_RemoteGitPlatform.request_review`:
`list(dict.fromkeys(reviewers + _GIT_CONFIG.recent_reviewers))`, with the
setter dropping empty names. -/
def record_recent_reviewers (reviewers old_recents : List String) : List String :=
  (py_dict_from_keys (reviewers ++ old_recents)).filter (fun r => r != "")

/-- A GitHub pull request as used by `git-review`
(`_GithubPullRequest` / the `hub` API). -/
structure PullRequest where
  base : String
  head : String
  number : Nat
  requested_reviewers : List String
  assignees : List String
deriving DecidableEq

/-- `_get_review_number` (GitHub): the number of the first open pull request
whose head is `branch` and, when `base` is given, whose base is `base`. -/
def get_review_number (prs : List PullRequest) (branch : String)
    (base : Option String) : Option Nat :=
  (prs.find? (fun pr => pr.head == branch && (base.isNone || base == some pr.base))).map
    (fun pr => pr.number)

/-- `_has_existing_review`: `_get_review_number(refs.remote)` is not `None`
(note: the base is not part of this check). -/
def has_existing_review (prs : List PullRequest) (remote : String) : Bool :=
  (get_review_number prs remote none).isSome

/-- `_GithubPlatform._add_reviewers`: look up the pull request for
`(remote, base)` and post the additional requested reviewers and assignees to
it.  Requested reviewers are restricted to the engineer set when that set is
non-empty; no new pull request is created. -/
def add_reviewers (prs : List PullRequest) (engineers : List String)
    (remote base : String) (reviewers : List String) : List PullRequest :=
  if reviewers.isEmpty then prs
  else
    let pull_number := get_review_number prs remote (some base)
    let requested :=
      if engineers.isEmpty then reviewers else reviewers.filter (engineers.contains ·)
    prs.map (fun pr =>
      if some pr.number == pull_number then
        { pr with requested_reviewers := pr.requested_reviewers ++ requested,
                  assignees := pr.assignees ++ reviewers }
      else pr)

/-- `_GithubPlatform._request_review`: with no message, only add reviewers to
the existing pull request; with a message, create a new pull request via
`hub pull-request` (modelled as appending a fresh pull request). -/
def github_request_review (prs : List PullRequest) (engineers : List String)
    (refs : References) (reviewers : List String) (message : Option String)
    (fresh_number : Nat) : List PullRequest :=
  match message with
  | none => add_reviewers prs engineers refs.remote refs.base reviewers
  | some _ =>
    let requested :=
      if engineers.isEmpty then reviewers else reviewers.filter (engineers.contains ·)
    prs ++ [⟨refs.base, refs.remote, fresh_number, requested, reviewers⟩]

/-- `_RemoteGitPlatform.request_review` (GitHub variant), restricted to its
effect on the set of open pull requests: the message is built only when no
review exists yet for `refs.remote`, and `_request_review` then either updates
reviewers or opens a new pull request.  (The recent-reviewer recording and the
issue labelling are modelled separately.) -/
def request_review (prs : List PullRequest) (engineers : List String)
    (refs : References) (reviewers : List String) (pr_message : String)
    (fresh_number : Nat) : List PullRequest :=
  let message := if has_existing_review prs refs.remote then none else some pr_message
  github_request_review prs engineers refs reviewers message fresh_number

/-- `_ScriptError`: remembers the printf-style message template (before
argument interpolation) as `_stable_message`, plus the formatted message. -/
structure ScriptError where
  template : String
  formatted : String
deriving DecidableEq

/-- `_ScriptError.__hash__`:
`sum((ord(char) - 64) * 53 ** i for i, char in enumerate(self._stable_message))`,
evaluated by Horner's rule. -/
def script_error_stable_hash (template : String) : Int :=
  template.data.foldr (fun c acc => ((c.toNat : Int) - 64) + 53 * acc) 0

/-- The hash reduction CPython applies to a Python `int` returned by a
user-defined `__hash__` (modelled from the CPython runtime, an external):
reduce modulo the Mersenne prime `2^61 - 1`, preserving sign, mapping `-1`
to `-2`. -/
def python_int_hash (n : Int) : Int :=
  let m : Int := 2 ^ 61 - 1
  let h := if 0 ≤ n then n % m else -((-n) % m)
  if h = -1 then -2 else h

/-- The process exit status observed by the OS after `sys.exit(n)` (modelled
from the CPython/POSIX runtime, an external): the exit code is `n` modulo
256. -/
def process_exit_status (n : Int) : Nat := (n % 256).toNat

/-- The exit code produced by the `__main__` guard of `git-review`
(`sys.exit(hash(error))`): it depends only on the error's message template. -/
def main_exit_code (e : ScriptError) : Nat :=
  process_exit_status (python_int_hash (script_error_stable_hash e.template))

/-- Every `_ScriptError` message template raised in `bin/git-review.py`. -/
def git_review_error_templates : List String :=
  [ "Unable to find a branch at HEAD",
    "Unable to find a remote HEAD reference.\nPlease run `git remote set-head origin -a` and rerun your command.",
    "Current git status is dirty. Commit, stash or revert your changes before sending for review.",
    "branch required:\n\t%s",
    "No change to put in a new review.",
    "No opened review for branch \"%s\".",
    "gitlab tool is not installed, please install it:\n  https://github.com/bayesimpact/bayes-developer-setup/blob/HEAD/gitlab-cli.md",
    "hub tool is not installed, or wrongly configured.\nPlease install it with ~/.bayes-developer-setup/install.sh",
    "Unable to auto-assign a reviewer.",
    "Could not find username, most probably you need to setup an email with:\n  git config user.email <me@bayesimpact.org>",
    "Local branch is not in the same state as remote branch. Not submitting.",
    "Please, set your email in git config." ]

end GitReview

namespace GitSubmit

/-! ### `bin/git-submit.py` -/

/-- The git facts `_handle_rebase` consults at each loop iteration:
the sha1 of the branch tip, the sha1 of the commit before the tip
(`branch.local^`), and whether that penultimate commit is an ancestor of the
recorded upstream initial commit (`_is_ancestor(penultimate, default.initial)`). -/
structure RebaseState where
  branch_sha : String
  penultimate : String
  penultimate_is_ancestor_of_initial : Bool
deriving DecidableEq

/-- A rebase actually performed by `_handle_rebase` via `_rebase`. -/
inductive RebaseEvent
  | fast_rebase
  | interactive_rebase
deriving DecidableEq

/-- How the `_handle_rebase` loop ends. -/
inductive RebaseOutcome
  /-- The function returns and `main` continues towards the push step. -/
  | proceed_to_push
  /-- `sys.exit(code)`. -/
  | exit_status (code : Nat)
  /-- A `_rebase` call raised `CalledProcessError` (conflict), which
  propagates out of `_handle_rebase`. -/
  | rebase_raised
  /-- The modelling fuel ran out (the source loop would still be running). -/
  | fuel_exhausted
deriving DecidableEq

/-- `_handle_rebase`.  `default_initial` is `default.initial`; `force` is the
`force` argument; `squash_on_github` is `_SQUASH_ON_GITHUB`; `ask_yes` is what
`_ask_yes_no('Rebase now?')` answers; `do_rebase` runs `_rebase`
(its `Bool` argument is the `interactive` flag), returning the new git state,
or `none` when the rebase fails.  Returns the rebases performed and the
outcome.  The loop guard `default.initial != penultimate` is checked before
anything else, so a branch exactly one commit ahead never enters the loop. -/
def handle_rebase (default_initial : String) (force squash_on_github ask_yes : Bool)
    (do_rebase : Bool → RebaseState → Option RebaseState) :
    Nat → RebaseState → List RebaseEvent × RebaseOutcome
  | 0, s =>
    if default_initial == s.penultimate then ([], .proceed_to_push)
    else ([], .fuel_exhausted)
  | fuel + 1, s =>
    let force2 := force || !squash_on_github
    if default_initial == s.penultimate then ([], .proceed_to_push)
    else if default_initial == s.branch_sha then ([], .exit_status 3)
    else if s.penultimate_is_ancestor_of_initial then
      if force2 then
        match do_rebase false s with
        | some _ => ([.fast_rebase], .proceed_to_push)
        | none => ([.fast_rebase], .rebase_raised)
      else ([], .proceed_to_push)
    else if !force2 then ([], .exit_status 12)
    else if !ask_yes then ([], .exit_status 4)
    else
      match do_rebase true s with
      | some s2 =>
        let r := handle_rebase default_initial force squash_on_github ask_yes do_rebase fuel s2
        (.interactive_rebase :: r.1, r.2)
      | none => ([.interactive_rebase], .rebase_raised)

/-- Where `main` goes right after the `_handle_rebase` call. -/
inductive MainPhase
  | push_step
  | exited (code : Nat)
  | crashed
  | never_finished
deriving DecidableEq

/-- The control flow of `main` after `_handle_rebase(default, branch, ...)`:
when the call returns, `main` continues with `get_pr_info` and the
`_push_to_remote` steps; a `sys.exit` or an uncaught `CalledProcessError`
stop it. -/
def phase_after_rebase (r : List RebaseEvent × RebaseOutcome) : MainPhase :=
  match r.2 with
  | .proceed_to_push => .push_step
  | .exit_status n => .exited n
  | .rebase_raised => .crashed
  | .fuel_exhausted => .never_finished

end GitSubmit

namespace Relay

/-! ### `lambda-reviewable-to-slack/reviewable_to_slack.py` -/

/-- A GitHub issue comment (the fields the relay reads). -/
structure Comment where
  id : Nat
  user : String
  body : String
deriving DecidableEq

/-- A GitHub commit status (the fields the relay reads). -/
structure Status where
  id : Nat
  context : String
  state : String
  target_url : String
  updated_at : String
  creator : String
deriving DecidableEq

/-- A GitHub pull request (the fields the relay reads). -/
structure PullRequest where
  user : String
  assignees : List String
  title : String
  number : Nat
  head_repo_full_name : String
  statuses_url : String
  comments_url : String
deriving DecidableEq

/-- `ReviewableEvent`. -/
inductive ReviewableEvent
  | ASSIGNED
  | COMMENTED
  | RESPONDED
  | APPROVED
  | CI_FAILED
deriving DecidableEq

/-- `CallToAction`. -/
inductive CallToAction
  | REVIEW
  | SUBMIT
  | CHECK_FEEDBACK
  | CHECK_CHANGE
  | CHECK_CI
  | ADDRESS_COMMENTS
  | WAIT_FOR_OTHER_REVIEWERS
deriving DecidableEq

/-- The exceptions the relay can raise while generating messages. -/
inductive RelayError
  /-- `NotEnoughDataException`. -/
  | not_enough_data (msg : String)
  /-- `ExecutionException`. -/
  | execution_error (msg : String)
  /-- `SetupException`. -/
  | setup (msg : String)
  /-- A `KeyError` / `StopIteration` / `AttributeError` escaping from the
  Python code when fed data of an unexpected shape. -/
  | attribute_error
deriving DecidableEq

/-- `GithubEventParams`. -/
structure GithubEventParams where
  pull_request : PullRequest
  statuses : List Status
  new_status : Option Status
  comments : List Comment
  new_comment : Option Comment
deriving DecidableEq

/-- `_REVIEWABLE_LGTM_REGEX.match(body)`: the body starts with the literal
pattern `<img class="emoji" title=":lgtm`. -/
def is_lgtm_comment (body : String) : Bool :=
  str_starts_with body "<img class=\"emoji\" title=\":lgtm"

/-- `_get_lgtm_givers` (a Python set; membership is what is used). -/
def get_lgtm_givers (comments : List Comment) : List String :=
  (comments.filter (fun c => is_lgtm_comment c.body)).map (fun c => c.user)

/-- `_get_unaddressed_comment_count`: "TODO(florian): Get this value from
comment." — it ignores its argument and returns 0. -/
def get_unaddressed_comment_count (_unused_comment : Comment) : Nat := 0

/-- A `\w` character of `_REVIEWABLE_ASSIGN_REGEX` (ASCII repertoire). -/
def is_word_char (c : Char) : Bool :=
  c.isAlphanum || c == '_'

/-- Scanner for `_REVIEWABLE_ASSIGN_REGEX.findall`, i.e. all matches of
`\+@([\w]+)\b`, left to right. -/
def find_assign_mentions_aux : Nat → List Char → List String
  | 0, _ => []
  | fuel + 1, cs =>
    match cs with
    | '+' :: '@' :: rest =>
      let w := rest.takeWhile is_word_char
      if w.isEmpty then find_assign_mentions_aux fuel ('@' :: rest)
      else String.mk w :: find_assign_mentions_aux fuel (rest.drop w.length)
    | _ :: rest => find_assign_mentions_aux fuel rest
    | [] => []

/-- `_REVIEWABLE_ASSIGN_REGEX.findall(body)`. -/
def find_assign_mentions (body : String) : List String :=
  find_assign_mentions_aux body.data.length body.data

/-- The literal head of `_REVIEWABLE_HTML_EMOJI_REGEX`. -/
def emoji_pattern_head : List Char := "<img class=\"emoji\" title=\"".data

/-- Try to match `_REVIEWABLE_HTML_EMOJI_REGEX`
(`<img class="emoji" title="([^"]+)"[^>]*>`) at the start of `cs`; on success
return the captured title and the characters after the match. -/
def match_emoji_at (cs : List Char) : Option (List Char × List Char) :=
  if chars_start_with cs emoji_pattern_head then
    let after_head := cs.drop emoji_pattern_head.length
    let title := after_head.takeWhile (fun c => c != '"')
    if title.isEmpty then none
    else
      match after_head.drop title.length with
      | '"' :: after_quote =>
        match after_quote.dropWhile (fun c => c != '>') with
        | '>' :: rest => some (title, rest)
        | _ => none
      | _ => none
  else none

/-- Left-to-right, non-overlapping substitution for
`_replace_emoji_image_by_emoji_name`. -/
def replace_emoji_aux : Nat → List Char → List Char
  | 0, cs => cs
  | fuel + 1, cs =>
    match match_emoji_at cs with
    | some (title, rest) => title ++ replace_emoji_aux fuel rest
    | none =>
      match cs with
      | [] => []
      | c :: rest => c :: replace_emoji_aux fuel rest

/-- `_replace_emoji_image_by_emoji_name`. -/
def replace_emoji_image_by_emoji_name (s : String) : String :=
  String.mk (replace_emoji_aux s.data.length s.data)

/-- `_REVIEWABLE_COMMENT_SEPARATOR`. -/
def reviewable_comment_separator : String := "\n\n---\n\n"

/-- `_START_OF_REVIEWABLE_COMMENT_WITHOUT_SEPARATOR_REGEX` (anchored at the
start of the body). -/
def start_without_separator : String := "\n\n\n\nReview status:"

/-- `_START_OF_REVIEWABLE_COMMENT_WITH_SEPARATOR_REGEX`, the replacement. -/
def start_with_separator : String := "\n\n---\n\nReview status:"

/-- `_get_comment_parts`: normalise the start of the body, split on the
Reviewable separator, return the emoji-substituted main comment and the
number of inline comments (`comment_parts[2:-1]`). -/
def get_comment_parts (comment_body : String) : String × Nat :=
  let body :=
    if str_starts_with comment_body start_without_separator then
      start_with_separator ++ String.mk (comment_body.data.drop start_without_separator.data.length)
    else comment_body
  let parts := py_split body reviewable_comment_separator
  let main_comment := replace_emoji_image_by_emoji_name (parts.headD "")
  match parts with
  | [] => (main_comment, 0)
  | [_] => (main_comment, 0)
  | _ :: _ :: _ => (main_comment, (parts.drop 2).length - 1)

/-- `_generate_comment_recap`. -/
def generate_comment_recap (new_comment_body : String) : String :=
  let parts := get_comment_parts new_comment_body
  let main_comment := parts.1
  let inline_comment_count := parts.2
  let recap :=
    if inline_comment_count != 0 then
      let sentence := toString inline_comment_count ++ " inline comment" ++
        (if inline_comment_count == 1 then "" else "s")
      if main_comment != "" then main_comment ++ "\nand " ++ sentence else sentence
    else main_comment
  recap ++ "\n"

/-- Stable insertion (after all elements whose context is `<=`) used to model
Python's stable `sorted(statuses, key=lambda status: status['context'])`. -/
def insert_sorted_by_context (s : Status) : List Status → List Status
  | [] => [s]
  | t :: ts =>
    if str_le t.context s.context then t :: insert_sorted_by_context s ts
    else s :: t :: ts

/-- Stable sort by status context. -/
def sort_statuses_by_context (statuses : List Status) : List Status :=
  statuses.foldl (fun acc s => insert_sorted_by_context s acc) []

/-- Helper for `itertools.groupby`: gather the current run of equal contexts. -/
def group_statuses_aux (ctx : String) (cur : List Status) :
    List Status → List (List Status)
  | [] => [cur.reverse]
  | x :: xs =>
    if x.context == ctx then group_statuses_aux ctx (x :: cur) xs
    else cur.reverse :: group_statuses_aux x.context [x] xs

/-- `itertools.groupby(statuses, key=...context)` on an already sorted list:
consecutive statuses with equal contexts. -/
def group_statuses_by_context : List Status → List (List Status)
  | [] => []
  | x :: xs => group_statuses_aux x.context [x] xs

/-- Python `max(statuses, key=...updated_at)`: keeps the first of several
maxima. -/
def max_by_updated_at (head : Status) (tail : List Status) : Status :=
  tail.foldl (fun acc s => if str_lt acc.updated_at s.updated_at then s else acc) head

/-- `_get_ci_status`: sort by context, group, and for every `ci/*` context
take the most recently updated status; the last such group wins. -/
def get_ci_status (statuses : List Status) : Option String × Option String :=
  let groups := group_statuses_by_context (sort_statuses_by_context statuses)
  groups.foldl
    (fun acc g =>
      match g with
      | [] => acc
      | x :: xs =>
        if str_starts_with x.context "ci/" then
          let last := max_by_updated_at x xs
          (some last.state, some last.target_url)
        else acc)
    (none, none)

/-- The environment variables of the relay. -/
structure SlackEnv where
  github_to_slack_login : List (String × String)
  disabled_slack_logins : List String
  error_slack_channel : String
deriving DecidableEq

/-- `_get_slack_login`: raises a `SetupException` for an unmapped GitHub
login. -/
def get_slack_login (env : SlackEnv) (github_login : String) : Except RelayError String :=
  match env.github_to_slack_login.lookup github_login with
  | some l => .ok l
  | none =>
    .error (.setup ("Need to add Github user " ++ squote ++ github_login ++ squote ++
      " to GITHUB_TO_SLACK_LOGIN"))

/-- `_EVENT_SLACK_TEMPLATES`, instantiated with `who` and `whose_change`. -/
def event_slack_string_template (event : ReviewableEvent) (who whose_change : String) : String :=
  match event with
  | .ASSIGNED => who ++ " needs your help to review " ++ whose_change
  | .COMMENTED => who ++ " has commented on " ++ whose_change
  | .RESPONDED => who ++ " has responsed to comments on " ++ whose_change
  | .APPROVED => who ++ " has approved " ++ whose_change
  | .CI_FAILED => "❗️ Continuous integration tests failed for " ++ whose_change

/-- `_CALL_TO_ACTION_TEMPLATES`, instantiated with the review and CI URLs. -/
def call_to_action_string (cta : CallToAction) (code_review_url : String)
    (ci_url : Option String) : String :=
  match cta with
  | .REVIEW => "Let" ++ squote ++ "s <" ++ code_review_url ++ "|check this code>!"
  | .SUBMIT => "Let" ++ squote ++ "s `git submit`!"
  | .CHECK_FEEDBACK => "Let" ++ squote ++ "s <" ++ code_review_url ++ "|check their feedback>!"
  | .CHECK_CHANGE => "Let" ++ squote ++ "s <" ++ code_review_url ++ "|check what they have changed>!"
  | .CHECK_CI => "Let" ++ squote ++ "s <" ++ py_str_of_opt ci_url ++ "|check what the problem is>."
  | .ADDRESS_COMMENTS => "Let" ++ squote ++ "s <" ++ code_review_url ++ "|address the remaining comments>."
  | .WAIT_FOR_OTHER_REVIEWERS => "You now need to wait for the other reviewers."

/-- `_generate_slack_message`: either `{}` (disabled recipient), or a
one-entry channel-to-text map; raises `SetupException` through
`_get_slack_login` for unmapped users. -/
def generate_slack_message (env : SlackEnv) (from_user : String) (event : ReviewableEvent)
    (to_user : String) (cta : CallToAction) (pr : PullRequest) (ci_url : Option String)
    (new_comment : Option Comment) : Except RelayError (List (String × String)) := do
  let slack_login ← get_slack_login env to_user
  if env.disabled_slack_logins.contains slack_login then
    return []
  let slack_channel := "@" ++ slack_login
  let code_review_url :=
    "https://reviewable.io/reviews/" ++ pr.head_repo_full_name ++ "/" ++ toString pr.number
  let who ←
    if from_user == to_user then pure "You"
    else do
      let l ← get_slack_login env from_user
      pure ("@" ++ l)
  let whose ←
    if pr.user == to_user then pure "your"
    else if pr.user == from_user then pure "their"
    else do
      let l ← get_slack_login env pr.user
      pure ("@" ++ l ++ squote ++ "s")
  let whose_change := whose ++ " change <" ++ code_review_url ++ "|" ++ pr.title ++ ">"
  let event_slack_string := event_slack_string_template event who whose_change
  let comment_recap :=
    match new_comment with
    | some c => generate_comment_recap c.body
    | none => ""
  let cta_string := call_to_action_string cta code_review_url ci_url
  return [(slack_channel, "_" ++ event_slack_string ++ ":_\n" ++ comment_recap ++ cta_string)]

/-- `slack_messages.update(...)`: Python dict update on an insertion-ordered
association list. -/
def dict_update (d kvs : List (String × String)) : List (String × String) :=
  kvs.foldl
    (fun acc kv =>
      if acc.any (fun p => p.1 == kv.1) then
        acc.map (fun p => if p.1 == kv.1 then (p.1, kv.2) else p)
      else acc ++ [kv])
    d

/-- One `add_slack_message(to_user, event, call_to_action)` call recorded by
the decision tree of `_generate_slack_messages_for_new_status_or_comment`. -/
structure Decision where
  to_user : String
  event : ReviewableEvent
  cta : CallToAction
deriving DecidableEq

/-- The `from_user` computed by
`_generate_slack_messages_for_new_status_or_comment` before its decision
tree; evaluating `new_status['creator']` crashes (`AttributeError`) when both
the new comment and the new status are absent. -/
def classify_from_user (p : GithubEventParams) : Except RelayError String :=
  let new_commentor : Option String := p.new_comment.map (fun c => c.user)
  let new_ci_status :=
    (get_ci_status (match p.new_status with | some s => [s] | none => [])).1
  if py_truthy_str new_commentor then .ok (new_commentor.getD "")
  else if py_truthy_str new_ci_status then .ok p.pull_request.user
  else
    match p.new_status with
    | some s => .ok s.creator
    | none => .error .attribute_error

/-- The decision tree of `_generate_slack_messages_for_new_status_or_comment`:
which `add_slack_message(to_user, event, call_to_action)` calls happen, in
order.  (Python iterates assignee sets in arbitrary order; the set built from
`pull_request['assignees']` is modelled in first-occurrence order.) -/
def classify_decision_list (p : GithubEventParams) : List Decision :=
  let reviewee := p.pull_request.user
  let assignees :=
    (py_dict_from_keys p.pull_request.assignees).filter (fun a => a != reviewee)
  let new_assignees :=
    match p.new_comment with
    | some c => find_assign_mentions c.body
    | none => []
  let commentors := p.comments.map (fun c => c.user)
  let new_commentor : Option String := p.new_comment.map (fun c => c.user)
  let ci_status := (get_ci_status p.statuses).1
  let new_ci_status :=
    (get_ci_status (match p.new_status with | some s => [s] | none => [])).1
  let lgtm_givers := get_lgtm_givers p.comments
  let new_lgtm_givers :=
    get_lgtm_givers (match p.new_comment with | some c => [c] | none => [])
  let has_assignees_without_lgtm := assignees.any (fun a => !lgtm_givers.contains a)
  let unaddressed_comment_count :=
    match p.comments.getLast? with
    | some c => get_unaddressed_comment_count c
    | none => 0
  let has_unaddressed_comments := unaddressed_comment_count != 0
  let can_submit := !has_assignees_without_lgtm && !has_unaddressed_comments
  if !py_truthy_str ci_status || ci_status == some "pending" then []
  else if new_ci_status == some "failure" then
    [⟨reviewee, .CI_FAILED, .CHECK_CI⟩]
  else if new_ci_status == some "success" then
    assignees.map (fun a => ⟨a, .ASSIGNED, .REVIEW⟩)
  else if !new_assignees.isEmpty then
    new_assignees.map (fun a => ⟨a, .ASSIGNED, .REVIEW⟩)
  else if new_commentor != some reviewee then
    if !new_lgtm_givers.isEmpty then
      if can_submit then [⟨reviewee, .APPROVED, .SUBMIT⟩]
      else if has_unaddressed_comments then [⟨reviewee, .APPROVED, .ADDRESS_COMMENTS⟩]
      else [⟨reviewee, .APPROVED, .WAIT_FOR_OTHER_REVIEWERS⟩]
    else if p.new_comment.isSome then [⟨reviewee, .COMMENTED, .CHECK_FEEDBACK⟩]
    else []
  else
    (assignees.map (fun a =>
      if commentors.contains a then (⟨a, .RESPONDED, .CHECK_FEEDBACK⟩ : Decision)
      else ⟨a, .COMMENTED, .REVIEW⟩)) ++
    (if has_unaddressed_comments then [⟨reviewee, .COMMENTED, .ADDRESS_COMMENTS⟩] else [])

/-- `_generate_slack_messages_for_new_status_or_comment`, split into the
eagerly computed `from_user` and the decision tree. -/
def classify_decisions (p : GithubEventParams) : Except RelayError (String × List Decision) :=
  match classify_from_user p with
  | .error e => .error e
  | .ok from_user => .ok (from_user, classify_decision_list p)

/-- `_generate_slack_messages_for_new_status_or_comment`: run the decision
tree, then render each decision with `_generate_slack_message`, accumulating
into the `slack_messages` dict. -/
def generate_slack_messages_for_new_status_or_comment (env : SlackEnv)
    (p : GithubEventParams) : Except RelayError (List (String × String)) := do
  let r ← classify_decisions p
  let ci_url := (get_ci_status p.statuses).2
  r.2.foldlM
    (fun acc d => do
      let m ← generate_slack_message env r.1 d.event d.to_user d.cta p.pull_request
        ci_url p.new_comment
      pure (dict_update acc m))
    []

/-- The GitHub API, as seen through `_get_github_api_ressource` (an external
service): resources are fetched by URL, and open pull requests are looked up
by owner and branch. -/
structure ApiOracle where
  pull_request_at : String → PullRequest
  statuses_of : String → List Status
  comments_of : String → List Comment
  pull_requests_for : String → String → List PullRequest

/-- The fields of an `issue_comment` notification that the relay reads. -/
structure IssueCommentNotification where
  issue_has_pull_request : Bool
  pull_request_url : String
  comment_id : Nat
deriving DecidableEq

/-- The fields of a `status` notification that the relay reads. -/
structure StatusNotification where
  branch_name : String
  context : String
  status_id : Nat
  repo_owner_login : String
deriving DecidableEq

/-- A webhook notification body. -/
inductive GithubNotification
  | issue_comment (n : IssueCommentNotification)
  | status_event (n : StatusNotification)

/-- `_get_all_resources_for_issue_comment_event`. -/
def get_all_resources_for_issue_comment (o : ApiOracle) (n : IssueCommentNotification) :
    Except RelayError GithubEventParams :=
  if !n.issue_has_pull_request then .error (.not_enough_data "No pull request")
  else
    let pr := o.pull_request_at n.pull_request_url
    let statuses := o.statuses_of pr.statuses_url
    let comments := o.comments_of pr.comments_url
    match comments.find? (fun c => c.id == n.comment_id) with
    | some c => .ok ⟨pr, statuses, none, comments, some c⟩
    | none => .error .attribute_error

/-- `_get_all_resources_for_status_event`. -/
def get_all_resources_for_status (o : ApiOracle) (n : StatusNotification) :
    Except RelayError GithubEventParams :=
  if str_starts_with n.context "ci/circleci" then
    match o.pull_requests_for n.repo_owner_login n.branch_name with
    | [pr] =>
      let statuses := o.statuses_of pr.statuses_url
      match statuses.find? (fun s => s.id == n.status_id) with
      | some s =>
        let comments := o.comments_of pr.comments_url
        .ok ⟨pr, statuses, some s, comments, none⟩
      | none => .error .attribute_error
    | _ => .error (.execution_error "Did not find a single pull_request")
  else
    .error (.execution_error
      ("Does not support " ++ squote ++ n.context ++ squote ++ " status context"))

/-- `generate_slack_messages`: dispatch on the webhook event type.  A payload
of the wrong shape for its event type makes the Python code raise a
`KeyError`, modelled as `attribute_error`. -/
def generate_slack_messages (env : SlackEnv) (o : ApiOracle) (github_event_type : String)
    (n : GithubNotification) : Except RelayError (List (String × String)) :=
  if github_event_type == "issue_comment" then
    match n with
    | .issue_comment ic =>
      match get_all_resources_for_issue_comment o ic with
      | .error e => .error e
      | .ok params => generate_slack_messages_for_new_status_or_comment env params
    | .status_event _ => .error .attribute_error
  else if github_event_type == "status" then
    match n with
    | .status_event sn =>
      if sn.branch_name == "master" then .ok []
      else if str_starts_with sn.context "code-review/reviewable" then .ok []
      else
        match get_all_resources_for_status o sn with
        | .error e => .error e
        | .ok params => generate_slack_messages_for_new_status_or_comment env params
    | .issue_comment _ => .error .attribute_error
  else .ok []

/-- The admin-channel text of `handle_github_notification`
(`'Error: {}\n\n{}\n'.format(err, traceback.format_exc())`; the traceback,
an artefact of the Python runtime, is not modelled). -/
def relay_error_text : RelayError → String
  | .not_enough_data m => m
  | .execution_error m => m
  | .setup m => m
  | .attribute_error => "AttributeError"

/-- `handle_github_notification`, up to the Slack POST loop: the
channel-to-message map in the HTTP response, and the HTTP status code.
`NotEnoughDataException` becomes an explicit no-op (200); any other exception
becomes a message to the admin error channel with status 500. -/
def handle_github_notification (env : SlackEnv) (o : ApiOracle)
    (github_event_type : String) (n : GithubNotification) :
    List (String × String) × Nat :=
  match generate_slack_messages env o github_event_type n with
  | .ok msgs => (msgs, 200)
  | .error (.not_enough_data _) => ([], 200)
  | .error e => ([(env.error_slack_channel, "Error: " ++ relay_error_text e)], 500)

/-- Does a classification result contain an `ADDRESS_COMMENTS` call to
action? -/
def has_address_comments_cta (r : Except RelayError (String × List Decision)) : Bool :=
  match r with
  | .ok fu_ds => fu_ds.2.any (fun d => d.cta == CallToAction.ADDRESS_COMMENTS)
  | .error _ => false

end Relay

/-! ### Concrete scenario data used by the claims -/

/-- The six orders in which Python set iteration can present the engineer
pool `{A, B, C}`. -/
def pools_abc : List (List String) :=
  [["A", "B", "C"], ["A", "C", "B"], ["B", "A", "C"],
   ["B", "C", "A"], ["C", "A", "B"], ["C", "B", "A"]]

/-- A containment oracle for the base-branch inference: the branch tip `t` is
only on `origin/feature`, while its parent `p` is on both `origin/feature`
and `origin/main` (containment is ancestor-closed, as in git). -/
def c5_contains (sha : String) : List String :=
  if sha == "t" then ["origin/feature"]
  else if sha == "p" then ["origin/feature", "origin/main"]
  else []

/-- Identity map and channels for the two-reviewer notification scenario. -/
def c7_env : Relay.SlackEnv :=
  ⟨[("guillaume", "guillaume"), ("pascal_gh", "pascal"), ("john_gh", "john")], [], "#errors"⟩

/-- The reviewed pull request of the two-reviewer scenario: owned by
`guillaume`, assigned to the two reviewers. -/
def c7_pull_request : Relay.PullRequest :=
  ⟨"guillaume", ["pascal_gh", "john_gh"], "Fix bug", 42, "bayesimpact/repo",
   "https://api.github.com/statuses/42", "https://api.github.com/comments/42"⟩

/-- A Reviewable approval-marker (LGTM) comment body. -/
def lgtm_body : String := "<img class=\"emoji\" title=\":lgtm:\" src=\"x\">"

/-- A successful CI status for the scenario. -/
def c7_status : Relay.Status := ⟨1, "ci/circleci", "success", "https://ci", "2020", "ci-bot"⟩

/-- The first approver's LGTM comment. -/
def c7_comment1 : Relay.Comment := ⟨11, "pascal_gh", lgtm_body⟩

/-- The second approver's LGTM comment. -/
def c7_comment2 : Relay.Comment := ⟨12, "john_gh", lgtm_body⟩

/-- The webhook event for the first approval. -/
def c7_params1 : Relay.GithubEventParams :=
  ⟨c7_pull_request, [c7_status], none, [c7_comment1], some c7_comment1⟩

/-- The webhook event for the second approval. -/
def c7_params2 : Relay.GithubEventParams :=
  ⟨c7_pull_request, [c7_status], none, [c7_comment1, c7_comment2], some c7_comment2⟩

/-- A minimal relay environment for the dispatcher claims. -/
def c8_env : Relay.SlackEnv := ⟨[("guillaume", "guillaume")], [], "@florian"⟩

/-- A trivial API oracle; the dispatcher paths exercised by the claims never
consult it. -/
def c8_oracle : Relay.ApiOracle :=
  ⟨fun _ => ⟨"owner", [], "title", 1, "repo", "surl", "curl"⟩,
   fun _ => [], fun _ => [], fun _ _ => []⟩

/-! ### Claims -/

/-- C1, counterexample to the claim as stated.  For a branch that is already
tracked (`branch.fix.merge` points at `alice-fix`) and not marked new, the
push IS forced even though the remote branch is not being freshly claimed and
no rebase re-pointing happened; and for a freshly claimed remote branch (no
tracked upstream) the push is NOT forced, contradicting the claimed
equivalence in both directions.  (`git-review` performs no rebase, so the
"re-pointed after a rebase" disjunct never holds there.) -/
theorem c1_counterexample :
    ("-f" ∈ (GitReview.prepare_push_command "alice" false "fix" "main" (some "alice-fix") none
        "main" "sha0" true).getD []) ∧
    (some "alice-fix" : Option String) ≠ none ∧
    ("-f" ∉ (GitReview.prepare_push_command "alice" false "fix" "main" none none
        "main" "sha0" true).getD []) := by
  decide

/-- C1, amended: in the review preparer, for a non-new invocation on a
non-default branch, the push is forced if and only if the branch already has
a tracked remote branch (its configured upstream, which then becomes the push
target); a freshly claimed remote branch gets a plain (non-forced) push. -/
theorem c1_push_forced_iff_tracked (username head default base mb : String)
    (existing_remote created : Option String) (refs : GitReview.References)
    (h : GitReview.git_branches_refs username false head default existing_remote created
        base mb = some refs)
    (hd : head ≠ default) :
    GitReview.push_is_forced false existing_remote refs = true ↔ existing_remote.isSome := by
  have hbd : (head == default) = false := beq_eq_false_iff_ne.mpr hd
  cases existing_remote with
  | none =>
    simp only [GitReview.git_branches_refs, hbd, Bool.false_or, if_neg Bool.false_ne_true,
      Option.some.injEq] at h
    subst h
    simp [GitReview.push_is_forced]
  | some r =>
    simp only [GitReview.git_branches_refs, hbd, Bool.false_or, if_neg Bool.false_ne_true,
      Option.some.injEq] at h
    subst h
    simp [GitReview.push_is_forced]

/-- C1 witness: the amended equivalence instantiated on the tracked-branch
input of the counterexample. -/
theorem c1_push_forced_iff_tracked_witness :
    GitReview.git_branches_refs "alice" false "fix" "main" (some "alice-fix") none "main" "sha0"
      = some ⟨"main", "fix", "alice-fix", "main", "sha0"⟩ ∧
    "fix" ≠ "main" ∧
    (GitReview.push_is_forced false (some "alice-fix") ⟨"main", "fix", "alice-fix", "main", "sha0"⟩
        = true ↔ (some "alice-fix" : Option String).isSome) :=
  ⟨by decide, by decide,
   c1_push_forced_iff_tracked "alice" "fix" "main" "main" "sha0" (some "alice-fix") none
     ⟨"main", "fix", "alice-fix", "main", "sha0"⟩ (by decide) (by decide)⟩

/-- C2, counterexample to the claim as stated: with the engineer pool
`{A, B, C}` and the recent-reviewer history `[B, A]`, after C is chosen and
recorded the history is `[C, B, A]`, and the next automatic selection picks
A (the least recently used), not B. -/
theorem c2_counterexample :
    GitReview.get_auto_reviewer
        (GitReview.record_recent_reviewers ["C"] ["B", "A"]) ["A", "B", "C"] =
      .chosen (some "A") ∧
    GitReview.get_auto_reviewer
        (GitReview.record_recent_reviewers ["C"] ["B", "A"]) ["A", "B", "C"] ≠
      .chosen (some "B") := by
  decide

/-- C2, amended: with engineer pool `{A, B, C}` (in any set-iteration order)
and recent-reviewer history `[B, A]` (most recent first), the automatic
choice is C; after C is chosen and recorded, the next selection over the same
pool chooses A, the least recently used engineer. -/
theorem c2_round_robin :
    ∀ pool ∈ pools_abc,
      GitReview.get_auto_reviewer ["B", "A"] pool = .chosen (some "C") ∧
      GitReview.get_auto_reviewer
        (GitReview.record_recent_reviewers ["C"] ["B", "A"]) pool = .chosen (some "A") := by
  decide

/-- C2 witness: the round-robin facts at one concrete pool order. -/
theorem c2_round_robin_witness :
    GitReview.get_auto_reviewer ["B", "A"] ["A", "B", "C"] = .chosen (some "C") ∧
    GitReview.get_auto_reviewer
      (GitReview.record_recent_reviewers ["C"] ["B", "A"]) ["A", "B", "C"] =
      .chosen (some "A") :=
  c2_round_robin ["A", "B", "C"] (by decide)

/-- C4: the branch-name cleanup removes exactly `#` and the Unicode combining
diacritical marks (U+0300 to U+036F) from the NFD decomposition, leaving
every other character (including the recovered base Latin letters) unchanged
and in order; in particular `"Clôture#42"` becomes `"Cloture42"`. -/
theorem c4_cleanup_branch_name :
    GitReview.cleanup_branch_name "Clôture#42" = "Cloture42" ∧
    (∀ s : String,
      ((GitReview.cleanup_branch_name s).data).Sublist (GitReview.nfd_string s)) ∧
    (∀ (s : String) (c : Char),
      ((GitReview.cleanup_branch_name s).data).count c =
        if GitReview.is_forbidden_char c then 0 else (GitReview.nfd_string s).count c) := by
  refine ⟨by decide, fun s => ?_, fun s c => ?_⟩
  · exact List.filter_sublist (GitReview.nfd_string s)
  · by_cases hc : GitReview.is_forbidden_char c
    · simp only [GitReview.cleanup_branch_name, hc, if_pos]
      rw [List.count_eq_zero]
      intro hmem
      have := List.of_mem_filter hmem
      simp [hc] at this
    · simp only [GitReview.cleanup_branch_name, hc, if_neg]
      exact List.count_filter (by simp [hc])

/-- C5, counterexample to the claim as stated: the source walks
`rev-list base-count-5 [1:]`, skipping the branch tip.  When the tip `t` is
contained only in `origin/feature` but its parent `p` is also on the default
branch, the claimed walk (starting at the tip) would return `feature`, while
the code starts at `p`, finds the default branch among the containing
branches, and returns no special base. -/
theorem c5_counterexample :
    GitReview.get_best_base_branch c5_contains ["t", "p"] none "main" = none ∧
    GitReview.spec_best_base_branch c5_contains ["t", "p"] none "main" = some "feature" := by
  decide

/-- C5, amended: the base-branch inference walks the commits strictly after
the branch tip among the five most recent (i.e. `rev-list` output minus its
head); for the first of those commits contained by at least one remote
branch it takes the containing set, returns no special base when the default
branch is among them, and otherwise returns the first candidate differing
from the branch's remote tracking name. -/
theorem c5_base_inference :
    (∀ (contains : String → List String) (rev_list : List String)
       (remote : Option String) (default : String),
      GitReview.get_best_base_branch contains rev_list remote default =
        GitReview.spec_best_base_branch contains rev_list.tail remote default) ∧
    (∀ (contains : String → List String) (rev_list : List String)
       (remote : Option String) (default : String) (rbs : List String),
      GitReview.first_contained contains rev_list.tail = some rbs →
      ((rbs.any (fun rb => str_ends_with rb ("/" ++ default)) = true →
        GitReview.get_best_base_branch contains rev_list remote default = none) ∧
       (rbs.any (fun rb => str_ends_with rb ("/" ++ default)) = false →
        GitReview.get_best_base_branch contains rev_list remote default =
          GitReview.first_non_tracking remote rbs))) := by
  refine ⟨fun _ _ _ _ => rfl, fun contains rev_list remote default rbs h => ⟨?_, ?_⟩⟩ <;>
    intro hany <;>
    simp [GitReview.get_best_base_branch, GitReview.branch_walk_best_base, h, hany]

/-- C5 witness: the amended walk on the two-commit history of the
counterexample. -/
theorem c5_base_inference_witness :
    GitReview.first_contained c5_contains (["t", "p"].tail) =
      some ["origin/feature", "origin/main"] ∧
    GitReview.get_best_base_branch c5_contains ["t", "p"] none "main" = none :=
  ⟨by decide,
   (c5_base_inference.2 c5_contains ["t", "p"] none "main" ["origin/feature", "origin/main"]
     (by decide)).1 (by decide)⟩

/-- C9: every `_ScriptError` raised by `git-review` exits with a non-zero
process code, and the code is a deterministic function of the error's message
template alone — two errors built from the same template (whatever the
interpolated arguments) exit with the same code. -/
theorem c9_stable_exit_codes :
    ∀ e1 e2 : GitReview.ScriptError,
      e1.template ∈ GitReview.git_review_error_templates →
      GitReview.main_exit_code e1 ≠ 0 ∧
      (e1.template = e2.template → GitReview.main_exit_code e1 = GitReview.main_exit_code e2) := by
  have hne : ∀ t ∈ GitReview.git_review_error_templates,
      GitReview.process_exit_status
        (GitReview.python_int_hash (GitReview.script_error_stable_hash t)) ≠ 0 := by
    set_option maxRecDepth 8000 in decide
  intro e1 e2 hmem
  refine ⟨hne e1.template hmem, fun ht => ?_⟩
  simp [GitReview.main_exit_code, ht]

/-- C9 witness: two errors sharing the `No opened review` template but with
different interpolated branch names exit with the same non-zero code. -/
theorem c9_stable_exit_codes_witness :
    ("No opened review for branch \"%s\"." ∈ GitReview.git_review_error_templates) ∧
    GitReview.main_exit_code
      ⟨"No opened review for branch \"%s\".", "No opened review for branch \"foo\"."⟩ ≠ 0 ∧
    GitReview.main_exit_code
      ⟨"No opened review for branch \"%s\".", "No opened review for branch \"foo\"."⟩ =
      GitReview.main_exit_code
        ⟨"No opened review for branch \"%s\".", "No opened review for branch \"bar\"."⟩ :=
  ⟨by decide,
   (c9_stable_exit_codes
     ⟨"No opened review for branch \"%s\".", "No opened review for branch \"foo\"."⟩
     ⟨"No opened review for branch \"%s\".", "No opened review for branch \"bar\"."⟩
     (by decide)).1,
   (c9_stable_exit_codes
     ⟨"No opened review for branch \"%s\".", "No opened review for branch \"foo\"."⟩
     ⟨"No opened review for branch \"%s\".", "No opened review for branch \"bar\"."⟩
     (by decide)).2 rfl⟩

/-- C3: requesting review is idempotent with respect to review creation.
When an open pull request already exists for the `(remote branch, base)`
pair, a further `request_review` changes neither the number of open pull
requests nor any request's head, base or number — it only updates reviewer
assignments. -/
theorem c3_request_review_idempotent :
    ∀ (prs : List GitReview.PullRequest) (engineers : List String)
      (refs : GitReview.References) (reviewers : List String) (msg : String) (n : Nat),
      (∃ pr ∈ prs, pr.head = refs.remote ∧ pr.base = refs.base) →
      ((GitReview.request_review prs engineers refs reviewers msg n).length = prs.length ∧
       (GitReview.request_review prs engineers refs reviewers msg n).map
          (fun pr => (pr.head, pr.base, pr.number)) =
        prs.map (fun pr => (pr.head, pr.base, pr.number))) := by
  intro prs engineers refs reviewers msg n h
  have hex : GitReview.has_existing_review prs refs.remote = true := by
    obtain ⟨pr, hmem, hhead, _⟩ := h
    simp only [GitReview.has_existing_review, GitReview.get_review_number, Option.isSome_map']
    rw [List.find?_isSome]
    exact ⟨pr, hmem, by simp [hhead]⟩
  simp only [GitReview.request_review, hex, if_true, GitReview.github_request_review]
  by_cases hr : reviewers.isEmpty
  · simp [GitReview.add_reviewers, hr]
  · simp only [GitReview.add_reviewers, hr, if_neg, Bool.false_eq_true, not_false_iff,
      List.length_map, List.map_map, true_and]
    refine List.map_congr_left fun pr _ => ?_
    simp only [Function.comp_apply]
    split <;> simp

/-- C3 witness: a repository with one open pull request for the pair keeps
exactly that pull request (same head, base and number) after a second
review request. -/
theorem c3_request_review_idempotent_witness :
    (GitReview.request_review [⟨"main", "alice-fix", 1, [], []⟩] []
        ⟨"main", "fix", "alice-fix", "main", "sha"⟩ ["bob"] "msg" 2).length =
      ([⟨"main", "alice-fix", 1, [], []⟩] : List GitReview.PullRequest).length ∧
    (GitReview.request_review [⟨"main", "alice-fix", 1, [], []⟩] []
        ⟨"main", "fix", "alice-fix", "main", "sha"⟩ ["bob"] "msg" 2).map
        (fun pr => (pr.head, pr.base, pr.number)) =
      ([⟨"main", "alice-fix", 1, [], []⟩] : List GitReview.PullRequest).map
        (fun pr => (pr.head, pr.base, pr.number)) :=
  c3_request_review_idempotent [⟨"main", "alice-fix", 1, [], []⟩] []
    ⟨"main", "fix", "alice-fix", "main", "sha"⟩ ["bob"] "msg" 2
    ⟨⟨"main", "alice-fix", 1, [], []⟩, by simp, rfl, rfl⟩

/-- C6: in the submit tool, for a branch exactly one commit ahead of the
recorded upstream initial commit (the commit before the branch tip equals
`default.initial`), the rebase loop returns immediately — no rebase of any
kind is run, no exit is taken — and `main` proceeds to the push step. -/
theorem c6_one_commit_ahead_proceeds (default_initial : String)
    (force squash ask : Bool)
    (do_rebase : Bool → GitSubmit.RebaseState → Option GitSubmit.RebaseState)
    (fuel : Nat) (s : GitSubmit.RebaseState)
    (h : s.penultimate = default_initial) :
    GitSubmit.handle_rebase default_initial force squash ask do_rebase fuel s =
      ([], .proceed_to_push) ∧
    GitSubmit.phase_after_rebase
      (GitSubmit.handle_rebase default_initial force squash ask do_rebase fuel s) =
      .push_step := by
  have hb : (default_initial == s.penultimate) = true := by simp [h]
  cases fuel <;>
    simp [GitSubmit.handle_rebase, hb, GitSubmit.phase_after_rebase]

/-- C6 witness: a concrete one-commit-ahead state proceeds straight to the
push step whatever the rebase oracle would do. -/
theorem c6_one_commit_ahead_proceeds_witness :
    (GitSubmit.RebaseState.mk "tip" "base0" false).penultimate = "base0" ∧
    GitSubmit.handle_rebase "base0" false true true (fun _ s => some s) 5
        ⟨"tip", "base0", false⟩ = ([], .proceed_to_push) ∧
    GitSubmit.phase_after_rebase
      (GitSubmit.handle_rebase "base0" false true true (fun _ s => some s) 5
        ⟨"tip", "base0", false⟩) = .push_step := by
  have h := c6_one_commit_ahead_proceeds "base0" false true true (fun _ s => some s) 5
    ⟨"tip", "base0", false⟩ rfl
  exact ⟨rfl, h.1, h.2⟩

/-- C7: in the two-assignee scenario, the first approval-marker comment
produces exactly one message, to the pull-request owner, carrying the
"wait for the other reviewers" call to action; only the second approval
produces the "git submit" call to action, again routed only to the owner. -/
theorem c7_two_approvals_scenario :
    Relay.generate_slack_messages_for_new_status_or_comment c7_env c7_params1 =
      .ok [("@guillaume",
        "_@pascal has approved your change <https://reviewable.io/reviews/bayesimpact/repo/42|Fix bug>:_\n:lgtm:\nYou now need to wait for the other reviewers.")] ∧
    Relay.generate_slack_messages_for_new_status_or_comment c7_env c7_params2 =
      .ok [("@guillaume",
        "_@john has approved your change <https://reviewable.io/reviews/bayesimpact/repo/42|Fix bug>:_\n:lgtm:\nLet" ++ squote ++ "s `git submit`!")] := by
  constructor <;> rfl

/-- C8, counterexample to the claim as stated: a `status` delivery whose
context is not the supported CI context cannot be resolved to a pull request,
yet the relay answers with an error message to the admin channel and HTTP
status 500, not with an empty no-op map. -/
theorem c8_counterexample :
    (Relay.handle_github_notification c8_env c8_oracle "status"
        (.status_event ⟨"my-feature", "ci/travis", 7, "acme"⟩)).2 = 500 ∧
    (Relay.handle_github_notification c8_env c8_oracle "status"
        (.status_event ⟨"my-feature", "ci/travis", 7, "acme"⟩)).1 ≠ [] := by
  constructor
  · rfl
  · decide

/-- C8, amended: deliveries with an unrecognized event type, and new-comment
deliveries whose payload carries no pull request, yield an empty
recipient-to-message map with HTTP status 200 (an explicit no-op, no error);
commit-status deliveries that cannot be resolved instead produce an
admin-channel error with status 500. -/
theorem c8_no_op_paths :
    ∀ (env : Relay.SlackEnv) (o : Relay.ApiOracle) (t : String)
      (n : Relay.GithubNotification),
      (t ≠ "issue_comment" → t ≠ "status" →
        Relay.handle_github_notification env o t n = ([], 200)) ∧
      (∀ ic : Relay.IssueCommentNotification, ic.issue_has_pull_request = false →
        Relay.handle_github_notification env o "issue_comment" (.issue_comment ic) =
          ([], 200)) := by
  intro env o t n
  constructor
  · intro h1 h2
    have hb1 : (t == "issue_comment") = false := beq_eq_false_iff_ne.mpr h1
    have hb2 : (t == "status") = false := beq_eq_false_iff_ne.mpr h2
    simp [Relay.handle_github_notification, Relay.generate_slack_messages, hb1, hb2]
  · intro ic hic
    simp [Relay.handle_github_notification, Relay.generate_slack_messages,
      Relay.get_all_resources_for_issue_comment, hic]

/-- C8 witness: an unknown `push` event is a 200 no-op, and an
`issue_comment` event without a pull request is a 200 no-op. -/
theorem c8_no_op_paths_witness :
    Relay.handle_github_notification c8_env c8_oracle "push"
      (.status_event ⟨"b", "ctx", 0, "own"⟩) = ([], 200) ∧
    Relay.handle_github_notification c8_env c8_oracle "issue_comment"
      (.issue_comment ⟨false, "url", 3⟩) = ([], 200) :=
  ⟨(c8_no_op_paths c8_env c8_oracle "push" (.status_event ⟨"b", "ctx", 0, "own"⟩)).1
     (by decide) (by decide),
   (c8_no_op_paths c8_env c8_oracle "issue_comment"
     (.issue_comment ⟨false, "url", 3⟩)).2 ⟨false, "url", 3⟩ rfl⟩

/-- Helper: a decision list whose entries all share a fixed call to action
other than `ADDRESS_COMMENTS` never contains `ADDRESS_COMMENTS`. -/
theorem any_address_map_const (l : List String) (ev : Relay.ReviewableEvent)
    (cta : Relay.CallToAction) (h : (cta == Relay.CallToAction.ADDRESS_COMMENTS) = false) :
    (l.map (fun a => (⟨a, ev, cta⟩ : Relay.Decision))).any
      (fun d => d.cta == Relay.CallToAction.ADDRESS_COMMENTS) = false := by
  induction l with
  | nil => rfl
  | cons x xs ih => simp only [List.map_cons, List.any_cons, ih, h, Bool.false_or]

/-- Helper: the owner-commented branch assigns only `CHECK_FEEDBACK` or
`REVIEW` to the assignees, never `ADDRESS_COMMENTS`. -/
theorem any_address_assignee_map (l commentors : List String) :
    (l.map (fun a =>
      if commentors.contains a then
        (⟨a, Relay.ReviewableEvent.RESPONDED, Relay.CallToAction.CHECK_FEEDBACK⟩ :
          Relay.Decision)
      else ⟨a, Relay.ReviewableEvent.COMMENTED, Relay.CallToAction.REVIEW⟩)).any
      (fun d => d.cta == Relay.CallToAction.ADDRESS_COMMENTS) = false := by
  induction l with
  | nil => rfl
  | cons x xs ih =>
    simp only [List.map_cons, List.any_cons, ih, Bool.or_false]
    split <;> rfl

/-- C10: the relay's unaddressed-comment count is always 0, so the classifier
never emits the `ADDRESS_COMMENTS` call to action: the approval branch always
resolves to `SUBMIT` or `WAIT_FOR_OTHER_REVIEWERS`. -/
theorem c10_no_address_comments_cta (p : Relay.GithubEventParams) :
    Relay.has_address_comments_cta (Relay.classify_decisions p) = false := by
  unfold Relay.has_address_comments_cta Relay.classify_decisions
  cases hfu : Relay.classify_from_user p with
  | error e => rfl
  | ok fu =>
    show (Relay.classify_decision_list p).any
      (fun d => d.cta == Relay.CallToAction.ADDRESS_COMMENTS) = false
    unfold Relay.classify_decision_list
    simp only [Relay.get_unaddressed_comment_count]
    cases hcl : p.comments.getLast? <;>
      simp only [bne_self_eq_false, Bool.not_false, Bool.and_true, Bool.false_eq_true,
        if_false] <;>
      repeat' split
    all_goals
      first
        | rfl
        | (apply any_address_map_const ; rfl)
        | (rw [List.any_append, any_address_assignee_map] ; simp)
